import Mathlib

/-!
Verification of the Session Timer & Limit Enforcement Engine of the
focus_me browser extension (`src/background.js`), as a shallow embedding.

Modelling conventions:
* Timestamps and durations are `Nat` milliseconds; `Date.now()` is passed
  explicitly as a parameter `now`.  JavaScript computes `Date.now() - start`
  with possibly-negative results; here subtraction is `Nat` truncated
  subtraction, and theorems that need exactness carry explicit hypotheses.
* `chrome.storage.local` is modelled as an explicit `EngineState` record
  threaded through every operation.  Each `await chrome.storage.local.get`
  in the source reads the current record; each `set` produces the next one.
  A handler that fetches a snapshot, lets another helper write, and then
  saves its stale snapshot is translated exactly that way (see
  `startTimerHandler`).
* JavaScript objects used as maps (`activeTimers`, per-day stats) are
  association lists with `lookupKV`/`setKV`/`removeKV`; JS object keys are
  unique, so `removeKV` (a filter) agrees with `delete` on every reachable
  store value.
* JavaScript truthiness tests on nullable numbers (`if (!tabId)`,
  `if (timerData.startTime)`) are modelled by `truthy`, which is false for
  both `null` and `0`.
-/

namespace FocusMe

/-- The closed set of category labels (buckets) used by the extension. -/
inductive Category
| trash
| interesting
| curriculum
| phd
deriving DecidableEq, Repr

/-- A per-bucket map of millisecond counts.  This is the shape of both a
per-day stats record (`{ trash: 0, interesting: 0, curriculum: 0, phd: 0 }`)
and of the `limitsInMs` settings cache. -/
structure Stats where
  trash : Nat
  interesting : Nat
  curriculum : Nat
  phd : Nat
deriving DecidableEq, Repr

/-- The all-zero stats record, the default when a day key is absent. -/
def Stats.zero : Stats := ⟨0, 0, 0, 0⟩

/-- Read one bucket's value. -/
def Stats.get (s : Stats) : Category → Nat
  | Category.trash => s.trash
  | Category.interesting => s.interesting
  | Category.curriculum => s.curriculum
  | Category.phd => s.phd

/-- `stats[category] += n`. -/
def Stats.add (s : Stats) (c : Category) (n : Nat) : Stats :=
  match c with
  | Category.trash => { s with trash := s.trash + n }
  | Category.interesting => { s with interesting := s.interesting + n }
  | Category.curriculum => { s with curriculum := s.curriculum + n }
  | Category.phd => { s with phd := s.phd + n }

/-- Bucketwise sum, the `totalStats[c] = savedStats[c] + liveStats[c]` loop. -/
def Stats.combine (a b : Stats) : Stats :=
  ⟨a.trash + b.trash, a.interesting + b.interesting,
   a.curriculum + b.curriculum, a.phd + b.phd⟩

/-- One `activeTimers[tabId]` record:
`{ category, totalTimeMs, startTime }`; `startTime = none` encodes `null`. -/
structure TimerData where
  category : Category
  totalTimeMs : Nat
  startTime : Option Nat
deriving DecidableEq, Repr

/-- The `activeTimers` object: tab id keyed association list. -/
abbrev Timers := List (Nat × TimerData)

/-- Lookup in a JS-object-as-map. -/
def lookupKV {α β : Type} [DecidableEq α] : List (α × β) → α → Option β
  | [], _ => none
  | p :: rest, k => if p.1 = k then some p.2 else lookupKV rest k

/-- `obj[k] = v`: replace the entry if the key is present, append otherwise. -/
def setKV {α β : Type} [DecidableEq α] : List (α × β) → α → β → List (α × β)
  | [], k, v => [(k, v)]
  | p :: rest, k, v => if p.1 = k then (k, v) :: rest else p :: setKV rest k v

/-- `delete obj[k]`.  JS object keys are unique, so removing every entry
with key `k` agrees with deleting the single one. -/
def removeKV {α β : Type} [DecidableEq α] (l : List (α × β)) (k : α) : List (α × β) :=
  l.filter (fun p => !decide (p.1 = k))

/-- JS truthiness of a nullable number: `null` and `0` are falsy. -/
def truthy : Option Nat → Bool
  | none => false
  | some n => n != 0

/-- The durable store: the `activeTimers` key, every per-day stats key
(`daily`, keyed by ISO date string), and the `lastRunDate` marker. -/
structure EngineState where
  timers : Timers
  daily : List (String × Stats)
  lastRunDate : Option String
deriving DecidableEq, Repr

/-- `storageData[today] || { trash: 0, interesting: 0, curriculum: 0, phd: 0 }`. -/
def getDay (daily : List (String × Stats)) (day : String) : Stats :=
  (lookupKV daily day).getD Stats.zero

/-- A one-shot command sent to (or a status answer for) the page agent. -/
inductive AgentCmd
| blockVideo
| unblockVideo
deriving DecidableEq, Repr

/-- The live total of one timer inside `getTodaysTotalStats`:
`currentTotalMs = totalTimeMs; if (timer.startTime) currentTotalMs += now - startTime`. -/
def currentTotalMs (now : Nat) (timer : TimerData) : Nat :=
  match timer.startTime with
  | some st => if st ≠ 0 then timer.totalTimeMs + (now - st) else timer.totalTimeMs
  | none => timer.totalTimeMs

/-- The `liveStats` accumulation loop of `getTodaysTotalStats`. -/
def liveStats (now : Nat) (timers : Timers) : Stats :=
  timers.foldl (fun acc p => acc.add p.2.category (currentTotalMs now p.2)) Stats.zero

/-- `getTodaysTotalStats`: saved stats for today's key plus the live
contribution of every tracked timer. -/
def getTodaysTotalStats (now : Nat) (today : String) (s : EngineState) : Stats :=
  Stats.combine (getDay s.daily today) (liveStats now s.timers)

/-- Fold the running interval of a timer:
`totalTimeMs += now - startTime; startTime = null`. -/
def foldTimer (now : Nat) (td : TimerData) : TimerData :=
  match td.startTime with
  | some st => { td with totalTimeMs := td.totalTimeMs + (now - st), startTime := none }
  | none => td

/-- `pauseTimer(tabId)`: folds the running interval if
`timerData && timerData.startTime` is truthy, else a no-op. -/
def pauseTimer (now : Nat) (tabId : Nat) (s : EngineState) : EngineState :=
  match lookupKV s.timers tabId with
  | some timerData =>
    if truthy timerData.startTime then
      { s with timers := setKV s.timers tabId (foldTimer now timerData) }
    else s
  | none => s

/-- One step of the `pauseAllTimers` loop body. -/
def pauseAllEntry (now : Nat) (exceptTabId : Option Nat) (p : Nat × TimerData) :
    Nat × TimerData :=
  if some p.1 = exceptTabId then p
  else if truthy p.2.startTime then (p.1, foldTimer now p.2) else p

/-- `pauseAllTimers(exceptTabId)`: folds every running timer other than
the excepted one. -/
def pauseAllTimers (now : Nat) (exceptTabId : Option Nat) (timers : Timers) : Timers :=
  timers.map (pauseAllEntry now exceptTabId)

/-- `resumeTimer(tabId)` with its budget re-check; returns the next store
and the list of fire-and-forget commands sent. -/
def resumeTimer (limitsInMs : Stats) (now : Nat) (today : String) (tabId : Nat)
    (s : EngineState) : EngineState × List (Nat × AgentCmd) :=
  match lookupKV s.timers tabId with
  | some timerData =>
    if timerData.startTime = none then
      let totalStats := getTodaysTotalStats now today s
      let timeSpent := totalStats.get timerData.category
      let timeLimit := limitsInMs.get timerData.category
      if timeSpent ≥ timeLimit then
        (s, [(tabId, AgentCmd.blockVideo)])
      else
        ({ s with timers := setKV s.timers tabId { timerData with startTime := some now } },
         [])
    else (s, [])
  | none => (s, [])

/-- `stopTimerAndSave(tabId)`: fold the final interval, save the total to
today's daily stats when positive, and delete the timer. -/
def stopTimerAndSave (now : Nat) (today : String) (tabId : Nat) (s : EngineState) :
    EngineState :=
  match lookupKV s.timers tabId with
  | none => s
  | some timerData =>
    let timerData := if truthy timerData.startTime then foldTimer now timerData else timerData
    let totalDurationMs := timerData.totalTimeMs
    let daily :=
      if totalDurationMs > 0 then
        setKV s.daily today ((getDay s.daily today).add timerData.category totalDurationMs)
      else s.daily
    { s with timers := removeKV s.timers tabId, daily := daily }

/-- `resetFlagsOnNewDay()`: if `lastRunDate` differs from today it writes
today's date, and that is all it does. -/
def resetFlagsOnNewDay (today : String) (s : EngineState) : EngineState :=
  if s.lastRunDate ≠ some today then { s with lastRunDate := some today } else s

/-- `proactivelyCheckLimits()`: computes the over-limit category set once,
then pauses and blocks every timer whose category is in it. -/
def proactivelyCheckLimits (limitsInMs : Stats) (now : Nat) (today : String)
    (s : EngineState) : EngineState × List (Nat × AgentCmd) :=
  let totalStats := getTodaysTotalStats now today s
  s.timers.foldl
    (fun acc p =>
      if totalStats.get p.2.category ≥ limitsInMs.get p.2.category then
        (pauseTimer now p.1 acc.1, acc.2 ++ [(p.1, AgentCmd.blockVideo)])
      else acc)
    (s, [])

/-- The `sendResponse` payload of the `startTimer` handler.  The three JS
response objects carry different field sets, hence the `Option` fields. -/
structure StartResponse where
  success : Bool
  blocked : Option Bool
  reason : Option String
deriving DecidableEq, Repr

/-- Outcome of the `startTimer` message handler: next store, response sent
through the message port (`none` when the handler returns without
responding), and commands pushed to tabs. -/
structure StartResult where
  state : EngineState
  response : Option StartResponse
  sent : List (Nat × AgentCmd)
deriving DecidableEq, Repr

/-- The `startTimer` message handler.  The under-budget branch is
translated store-write by store-write: line 176 takes the `activeTimers`
snapshot, line 183 `pauseAllTimers` reads and writes the store, and line
191 saves the line-176 snapshot with the new timer added — overwriting the
write `pauseAllTimers` just made.  The net store is therefore the snapshot
plus the new running timer. -/
def startTimerHandler (limitsInMs : Stats) (now : Nat) (today : String)
    (messageTabId : Option Nat) (category : Category) (s : EngineState) : StartResult :=
  if truthy messageTabId = false then
    { state := s, response := none, sent := [] }
  else
    let tabId := messageTabId.getD 0
    let totalStats := getTodaysTotalStats now today s
    if totalStats.get category ≥ limitsInMs.get category then
      let taintedTimers := setKV s.timers tabId ⟨category, 0, none⟩
      { state := { s with timers := taintedTimers },
        response := some { success := true, blocked := some true, reason := none },
        sent := [(tabId, AgentCmd.blockVideo)] }
    else
      let snapshot := s.timers
      match lookupKV snapshot tabId with
      | some _ =>
        { state := s,
          response := some { success := false, blocked := none,
                             reason := some "Timer already running." },
          sent := [] }
      | none =>
        let _pauseAllWriteLaterOverwritten := pauseAllTimers now (some tabId) s.timers
        let newTimers := setKV snapshot tabId ⟨category, 0, some now⟩
        { state := { s with timers := newTimers },
          response := some { success := true, blocked := some false, reason := none },
          sent := [] }

/-- Outcome of the `checkMyStatus` message handler. -/
structure StatusResult where
  state : EngineState
  response : Option AgentCmd
  sent : List (Nat × AgentCmd)
deriving DecidableEq, Repr

/-- The `checkMyStatus` handshake handler: unblock when the sender has no
truthy tab id or no timer; otherwise block (pausing first) exactly when
the category is at or over its limit. -/
def checkMyStatusHandler (limitsInMs : Stats) (now : Nat) (today : String)
    (senderTabId : Option Nat) (s : EngineState) : StatusResult :=
  if truthy senderTabId = false then
    { state := s, response := some AgentCmd.unblockVideo, sent := [] }
  else
    let tabId := senderTabId.getD 0
    match lookupKV s.timers tabId with
    | none => { state := s, response := some AgentCmd.unblockVideo, sent := [] }
    | some timer =>
      let totalStats := getTodaysTotalStats now today s
      if totalStats.get timer.category ≥ limitsInMs.get timer.category then
        { state := pauseTimer now tabId s, response := some AgentCmd.blockVideo, sent := [] }
      else
        { state := s, response := some AgentCmd.unblockVideo, sent := [] }

/-- The `DEFAULT_LIMITS` converted to milliseconds
(0.5, 30, 60, 9999 minutes). -/
def defaultLimitsInMs : Stats := ⟨30000, 1800000, 3600000, 599940000⟩

/-- Number of timers whose `startTime` is non-null. -/
def runningCount (ts : Timers) : Nat :=
  (ts.filter (fun p => p.2.startTime.isSome)).length

/-- The spec's formula for the live contribution of one TimerState
(spec §4.2): `accumulatedMs + (now - runningSinceMs)` if running
(non-null `runningSinceMs`), just `accumulatedMs` if paused.  Stated from
the spec's words to compare against `getTodaysTotalStats`. -/
def specLiveContribution (now : Nat) (td : TimerData) : Nat :=
  match td.startTime with
  | some since => td.totalTimeMs + (now - since)
  | none => td.totalTimeMs

/-- The time a timer accounts for at instant `now`: its accumulated total
plus, when running, the open interval since `startTime`. -/
def timerCharge (now : Nat) (td : TimerData) : Nat :=
  match td.startTime with
  | some st => td.totalTimeMs + (now - st)
  | none => td.totalTimeMs

/-- `timerCharge` restricted to one bucket. -/
def catCharge (now : Nat) (b : Category) (td : TimerData) : Nat :=
  if td.category = b then timerCharge now td else 0

/-- Total charge of the live timer map for one bucket. -/
def timersCharge (now : Nat) (b : Category) (ts : Timers) : Nat :=
  (ts.map (fun p => catCharge now b p.2)).sum

/-- Conservation accounting for one bucket: milliseconds already folded
into today's daily stats plus the charge of every live timer. -/
def bucketCharge (now : Nat) (today : String) (b : Category) (s : EngineState) : Nat :=
  (getDay s.daily today).get b + timersCharge now b s.timers

/-- A timer whose `startTime`, if set, is a positive timestamp.
`Date.now()` is always positive, so every reachable store satisfies this;
it rules out the JS-truthiness corner `startTime = 0`. -/
def startTimeOk (td : TimerData) : Bool :=
  match td.startTime with
  | some st => st != 0
  | none => true

/-- Every timer in the map has a positive `startTime` when running. -/
def startTimesOk (ts : Timers) : Bool :=
  ts.all (fun p => startTimeOk p.2)

/-- The deterministic engine operations (the `onActivated` handler runs
its per-tab pauses/resumes under `Promise.all` and is not modelled). -/
inductive EngineOp
| start (messageTabId : Option Nat) (category : Category)
| pause (tabId : Nat)
| pauseAllOp (exceptTabId : Option Nat)
| resume (tabId : Nat)
| stop (tabId : Nat)
| status (senderTabId : Option Nat)
| newDayTick
| sweep
deriving DecidableEq, Repr

/-- Apply one engine operation at instant `now`, keeping only the store. -/
def applyOp (limitsInMs : Stats) (now : Nat) (today : String) :
    EngineOp → EngineState → EngineState
  | EngineOp.start tid cat, s => (startTimerHandler limitsInMs now today tid cat s).state
  | EngineOp.pause tid, s => pauseTimer now tid s
  | EngineOp.pauseAllOp exc, s => { s with timers := pauseAllTimers now exc s.timers }
  | EngineOp.resume tid, s => (resumeTimer limitsInMs now today tid s).1
  | EngineOp.stop tid, s => stopTimerAndSave now today tid s
  | EngineOp.status sid, s => (checkMyStatusHandler limitsInMs now today sid s).state
  | EngineOp.newDayTick, s => resetFlagsOnNewDay today s
  | EngineOp.sweep, s => (proactivelyCheckLimits limitsInMs now today s).1

/-- An operation is conservative unless it is an over-budget `startTimer`
aimed at a surface whose existing timer still holds unfolded charge —
that is the one path that overwrites (and so discards) accrued time. -/
def opConserves (limitsInMs : Stats) (now : Nat) (today : String) :
    EngineOp → EngineState → Bool
  | EngineOp.start tid cat, s =>
    if truthy tid then
      if (getTodaysTotalStats now today s).get cat ≥ limitsInMs.get cat then
        match lookupKV s.timers (tid.getD 0) with
        | some td => timerCharge now td == 0
        | none => true
      else true
    else true
  | _, _ => true

/-! Concrete inputs used by the counterexample and bug-witness theorems. -/

/-- Starting from an empty store: surface 1 starts an `interesting` timer
at t = 1000 ms. -/
def c1FirstStart : StartResult :=
  startTimerHandler defaultLimitsInMs 1000 "2026-10-11" (some 1)
    Category.interesting ⟨[], [], none⟩

/-- Then surface 2 starts an `interesting` timer at t = 61000 ms (still
far under the 30-minute budget). -/
def c1SecondStart : StartResult :=
  startTimerHandler defaultLimitsInMs 61000 "2026-10-11" (some 2)
    Category.interesting c1FirstStart.state

/-- A store holding one timer with 5000 ms accrued, running since t = 100,
with 7000 ms already folded for 2026-10-10 and `lastRunDate = 2026-10-10`. -/
def c2RolloverInput : EngineState :=
  ⟨[(1, ⟨Category.trash, 5000, some 100⟩)],
   [("2026-10-10", ⟨7000, 0, 0, 0⟩)], some "2026-10-10"⟩

/-- A store where surface 1 already holds a paused `trash` timer with
40000 ms accrued — over the default 30000 ms trash budget. -/
def c4ExistingTimerInput : EngineState :=
  ⟨[(1, ⟨Category.trash, 40000, none⟩)], [], some "2026-10-11"⟩

/-- Same situation for the conservation counterexample: a paused `trash`
timer holding 40000 ms of unfolded accrued time. -/
def c9DiscardInput : EngineState :=
  ⟨[(1, ⟨Category.trash, 40000, none⟩)], [], some "2026-10-11"⟩

/-- A store with 40000 ms of `trash` already folded for today (over the
default 30000 ms budget), one unrelated running timer, and no timer yet
for surface 1. -/
def c3WitnessInput : EngineState :=
  ⟨[(7, ⟨Category.phd, 2000, some 400⟩)],
   [("2026-10-11", ⟨40000, 0, 0, 0⟩)], some "2026-10-11"⟩

/-- A store with an existing paused timer for surface 1 whose bucket is
still under budget. -/
def c4WitnessInput : EngineState :=
  ⟨[(1, ⟨Category.interesting, 9000, none⟩)], [], some "2026-10-11"⟩

/-- A store where surface 1 runs a `trash` timer that has crossed the
budget, alongside an unrelated paused timer on surface 9. -/
def c10WitnessInput : EngineState :=
  ⟨[(1, ⟨Category.trash, 25000, some 4000⟩), (9, ⟨Category.phd, 500, none⟩)],
   [], some "2026-10-11"⟩

end FocusMe

namespace FocusMe

/-! ### Association-list lemmas -/

theorem lookupKV_setKV_self {α β : Type} [DecidableEq α] (l : List (α × β)) (k : α) (v : β) :
    lookupKV (setKV l k v) k = some v := by
  induction l with
  | nil => simp [setKV, lookupKV]
  | cons p rest ih =>
    by_cases h : p.1 = k
    · simp [setKV, h, lookupKV]
    · simp [setKV, h, lookupKV, ih]

theorem lookupKV_setKV_ne {α β : Type} [DecidableEq α] (l : List (α × β)) (k k' : α) (v : β)
    (h : k' ≠ k) : lookupKV (setKV l k v) k' = lookupKV l k' := by
  have hk : ¬ k = k' := fun h' => h h'.symm
  induction l with
  | nil => simp [setKV, lookupKV, hk]
  | cons p rest ih =>
    by_cases hp : p.1 = k
    · have hp' : ¬ p.1 = k' := fun h' => hk (hp.symm.trans h')
      simp [setKV, hp, lookupKV, hk, hp']
    · simp only [setKV, if_neg hp, lookupKV]
      by_cases hp' : p.1 = k'
      · simp [hp']
      · simp [hp', ih]

theorem lookupKV_removeKV_self {α β : Type} [DecidableEq α] (l : List (α × β)) (k : α) :
    lookupKV (removeKV l k) k = none := by
  induction l with
  | nil => simp [removeKV, lookupKV]
  | cons p rest ih =>
    by_cases h : p.1 = k
    · simpa [removeKV, h] using ih
    · simpa [removeKV, lookupKV, h] using ih

theorem lookupKV_removeKV_ne {α β : Type} [DecidableEq α] (l : List (α × β)) (k k' : α)
    (h : k' ≠ k) : lookupKV (removeKV l k) k' = lookupKV l k' := by
  induction l with
  | nil => simp [removeKV, lookupKV]
  | cons p rest ih =>
    simp only [removeKV] at ih ⊢
    by_cases hp : p.1 = k
    · have hne : ¬ p.1 = k' := fun h' => h ((h'.symm.trans hp))
      have hk2 : ¬ k = k' := fun h' => h h'.symm
      simp [List.filter_cons, hp, lookupKV, hne, hk2, ih]
    · by_cases hp' : p.1 = k'
      · simp [List.filter_cons, hp, lookupKV, hp', h]
      · simp [List.filter_cons, hp, lookupKV, hp', ih]

/-! ### Claim theorems -/

/-- C1: the single-active-timer invariant fails in the code.  Starting a
timer for surface 1 and then, under budget, for surface 2 leaves BOTH
timers with a non-null `startTime`: the `startTimer` handler saves the
`activeTimers` snapshot it took before calling `pauseAllTimers`, so the
pause of surface 1 is overwritten and two timers run at once. -/
theorem startTimer_leaves_previous_timer_running :
    runningCount c1SecondStart.state.timers = 2 ∧
    lookupKV c1SecondStart.state.timers 1 =
      some ⟨Category.interesting, 0, some 1000⟩ ∧
    lookupKV c1SecondStart.state.timers 2 =
      some ⟨Category.interesting, 0, some 61000⟩ ∧
    c1SecondStart.response = some ⟨true, some false, none⟩ := by
  decide

/-- C2 counterexample: the periodic day-rollover performs no migration.
With 5000 ms accrued on a live timer and `lastRunDate = 2026-10-10`, after
`resetFlagsOnNewDay` runs on 2026-10-11, yesterday's stats have NOT
increased by 5000 (they are still 7000) and the timer's `accumulatedMs`
has NOT been reset (still 5000, still running since t = 100). -/
theorem rollover_does_not_migrate_accumulated_time :
    ¬ ((getDay (resetFlagsOnNewDay "2026-10-11" c2RolloverInput).daily
          "2026-10-10").get Category.trash = 7000 + 5000) ∧
    lookupKV (resetFlagsOnNewDay "2026-10-11" c2RolloverInput).timers 1 =
      some ⟨Category.trash, 5000, some 100⟩ ∧
    ¬ ((lookupKV (resetFlagsOnNewDay "2026-10-11" c2RolloverInput).timers 1).map
         TimerData.totalTimeMs = some 0) := by
  decide

/-- C2 amended: the day-rollover only updates `lastRunDate` to today; the
timer map and every day's daily stats are left untouched. -/
theorem resetFlagsOnNewDay_only_updates_lastRunDate (today : String) (s : EngineState) :
    resetFlagsOnNewDay today s = ⟨s.timers, s.daily, some today⟩ := by
  cases s with
  | mk timers daily lastRunDate =>
    by_cases h : lastRunDate = some today
    · simp [resetFlagsOnNewDay, h]
    · simp [resetFlagsOnNewDay, h]

/-- C4 counterexample: when the requested bucket is over budget, the
over-budget check runs before the existence check, so `startTimer` on a
surface that already has a TimerState does NOT return the soft failure —
it answers `{ success := true, blocked := true }` and replaces the
existing TimerState (40000 ms accrued) with the tainted one. -/
theorem startTimer_over_budget_overwrites_existing_timer :
    ¬ ((startTimerHandler defaultLimitsInMs 50000 "2026-10-11" (some 1)
          Category.trash c4ExistingTimerInput).response =
        some ⟨false, none, some "Timer already running."⟩) ∧
    (startTimerHandler defaultLimitsInMs 50000 "2026-10-11" (some 1)
        Category.trash c4ExistingTimerInput).response =
      some ⟨true, some true, none⟩ ∧
    lookupKV (startTimerHandler defaultLimitsInMs 50000 "2026-10-11" (some 1)
        Category.trash c4ExistingTimerInput).state.timers 1 =
      some ⟨Category.trash, 0, none⟩ := by
  decide

/-- C9 counterexample: conservation of time fails.  Surface 1 holds a
paused `trash` timer with 40000 ms of unfolded accrued time; an
over-budget `startTimer` for the same surface overwrites it with the
tainted TimerState, dropping the bucket's charge (folded daily stats plus
live accumulation) from 40000 to 0 — 40000 ms are discarded. -/
theorem startTimer_taint_discards_accrued_time :
    bucketCharge 50000 "2026-10-11" Category.trash c9DiscardInput = 40000 ∧
    bucketCharge 50000 "2026-10-11" Category.trash
      (applyOp defaultLimitsInMs 50000 "2026-10-11"
        (EngineOp.start (some 1) Category.trash) c9DiscardInput) = 0 := by
  decide

/-- C3: budget fail-closed on start.  When the bucket's total is at or
over its limit, `startTimer` writes the tainted non-running TimerState for
the surface, leaves daily stats and every other surface's TimerState
untouched, answers `{ success := true, blocked := true }`, sends the
best-effort block command — and no TimerState in the result is running
unless it was already running with the same `startTime` before. -/
theorem startTimer_over_budget_fail_closed
    (limitsInMs : Stats) (now : Nat) (today : String) (t : Nat) (category : Category)
    (s : EngineState) (ht : t ≠ 0)
    (hover : (getTodaysTotalStats now today s).get category ≥ limitsInMs.get category) :
    (startTimerHandler limitsInMs now today (some t) category s).state.timers =
        setKV s.timers t ⟨category, 0, none⟩ ∧
    lookupKV (startTimerHandler limitsInMs now today (some t) category s).state.timers t =
        some ⟨category, 0, none⟩ ∧
    (startTimerHandler limitsInMs now today (some t) category s).state.daily = s.daily ∧
    (startTimerHandler limitsInMs now today (some t) category s).state.lastRunDate =
        s.lastRunDate ∧
    (startTimerHandler limitsInMs now today (some t) category s).response =
        some ⟨true, some true, none⟩ ∧
    (startTimerHandler limitsInMs now today (some t) category s).sent =
        [(t, AgentCmd.blockVideo)] ∧
    (∀ id, id ≠ t →
      lookupKV (startTimerHandler limitsInMs now today (some t) category s).state.timers id =
        lookupKV s.timers id) ∧
    (∀ id td st,
      lookupKV (startTimerHandler limitsInMs now today (some t) category s).state.timers id =
          some td →
      td.startTime = some st → lookupKV s.timers id = some td) := by
  have htr : truthy (some t) = true := by simp [truthy, ht]
  have hres : startTimerHandler limitsInMs now today (some t) category s =
      { state := { s with timers := setKV s.timers t ⟨category, 0, none⟩ },
        response := some ⟨true, some true, none⟩,
        sent := [(t, AgentCmd.blockVideo)] } := by
    simp [startTimerHandler, htr, if_pos hover]
  rw [hres]
  refine ⟨rfl, lookupKV_setKV_self s.timers t _, rfl, rfl, rfl, rfl, ?_, ?_⟩
  · intro id hid
    exact lookupKV_setKV_ne s.timers t id _ hid
  · intro id td st hlook hst
    by_cases hid : id = t
    · subst hid
      rw [lookupKV_setKV_self] at hlook
      cases hlook
      simp at hst
    · rw [lookupKV_setKV_ne s.timers t id _ hid] at hlook
      exact hlook

/-- Witness for C3 at a concrete over-budget input. -/
theorem startTimer_over_budget_fail_closed_witness :
    ((1 : Nat) ≠ 0 ∧
      (getTodaysTotalStats 50000 "2026-10-11" c3WitnessInput).get Category.trash ≥
        defaultLimitsInMs.get Category.trash) ∧
    lookupKV (startTimerHandler defaultLimitsInMs 50000 "2026-10-11" (some 1)
        Category.trash c3WitnessInput).state.timers 1 =
      some ⟨Category.trash, 0, none⟩ ∧
    (startTimerHandler defaultLimitsInMs 50000 "2026-10-11" (some 1)
        Category.trash c3WitnessInput).response = some ⟨true, some true, none⟩ :=
  ⟨⟨by decide, by decide⟩,
   (startTimer_over_budget_fail_closed defaultLimitsInMs 50000 "2026-10-11" 1
      Category.trash c3WitnessInput (by decide) (by decide)).2.1,
   (startTimer_over_budget_fail_closed defaultLimitsInMs 50000 "2026-10-11" 1
      Category.trash c3WitnessInput (by decide) (by decide)).2.2.2.2.1⟩

/-- C4 amended: `startTimer` soft-fails on an existing TimerState only
when the requested bucket is under budget; in that case it returns
`{ success := false, reason := "Timer already running." }` and leaves the
whole store unchanged.  (When the bucket is over budget the existence
check is never reached and the existing TimerState is overwritten by the
tainted one.) -/
theorem startTimer_under_budget_soft_fails_on_existing
    (limitsInMs : Stats) (now : Nat) (today : String) (t : Nat) (category : Category)
    (s : EngineState) (td : TimerData) (ht : t ≠ 0)
    (hunder : (getTodaysTotalStats now today s).get category < limitsInMs.get category)
    (hex : lookupKV s.timers t = some td) :
    startTimerHandler limitsInMs now today (some t) category s =
      { state := s,
        response := some ⟨false, none, some "Timer already running."⟩,
        sent := [] } := by
  have htr : truthy (some t) = true := by simp [truthy, ht]
  have hno : ¬ ((getTodaysTotalStats now today s).get category ≥
      limitsInMs.get category) := not_le.mpr hunder
  simp [startTimerHandler, htr, hno, hex]

/-- Witness for C4's amended claim at a concrete under-budget input. -/
theorem startTimer_under_budget_soft_fails_on_existing_witness :
    ((1 : Nat) ≠ 0 ∧
      (getTodaysTotalStats 20000 "2026-10-11" c4WitnessInput).get Category.interesting <
        defaultLimitsInMs.get Category.interesting ∧
      lookupKV c4WitnessInput.timers 1 = some ⟨Category.interesting, 9000, none⟩) ∧
    startTimerHandler defaultLimitsInMs 20000 "2026-10-11" (some 1)
        Category.interesting c4WitnessInput =
      { state := c4WitnessInput,
        response := some ⟨false, none, some "Timer already running."⟩,
        sent := [] } :=
  ⟨⟨by decide, by decide, by decide⟩,
   startTimer_under_budget_soft_fails_on_existing defaultLimitsInMs 20000 "2026-10-11" 1
     Category.interesting c4WitnessInput ⟨Category.interesting, 9000, none⟩
     (by decide) (by decide) (by decide)⟩

/-- C5: the `checkMyStatus` decision function.  A query with no truthy
sender tab id is answered "unblock"; a surface with no TimerState is
answered "unblock"; a surface with a TimerState is answered "block" iff
its bucket's total is at or over the limit (pausing that timer first),
and "unblock" otherwise; and every query receives an answer. -/
theorem checkMyStatus_decision_function (limitsInMs : Stats) (now : Nat) (today : String)
    (s : EngineState) :
    (∀ sid, truthy sid = false →
      checkMyStatusHandler limitsInMs now today sid s =
        ⟨s, some AgentCmd.unblockVideo, []⟩) ∧
    (∀ t : Nat, t ≠ 0 → lookupKV s.timers t = none →
      checkMyStatusHandler limitsInMs now today (some t) s =
        ⟨s, some AgentCmd.unblockVideo, []⟩) ∧
    (∀ (t : Nat) (td : TimerData), t ≠ 0 → lookupKV s.timers t = some td →
      ((checkMyStatusHandler limitsInMs now today (some t) s).response =
          some AgentCmd.blockVideo ↔
        (getTodaysTotalStats now today s).get td.category ≥
          limitsInMs.get td.category) ∧
      ((getTodaysTotalStats now today s).get td.category ≥ limitsInMs.get td.category →
        checkMyStatusHandler limitsInMs now today (some t) s =
          ⟨pauseTimer now t s, some AgentCmd.blockVideo, []⟩) ∧
      ((getTodaysTotalStats now today s).get td.category < limitsInMs.get td.category →
        checkMyStatusHandler limitsInMs now today (some t) s =
          ⟨s, some AgentCmd.unblockVideo, []⟩)) ∧
    (∀ sid, (checkMyStatusHandler limitsInMs now today sid s).response.isSome = true) := by
  refine ⟨?_, ?_, ?_, ?_⟩
  · intro sid hsid
    simp [checkMyStatusHandler, hsid]
  · intro t htz hnone
    have htr : truthy (some t) = true := by simp [truthy, htz]
    simp [checkMyStatusHandler, htr, hnone]
  · intro t td htz hsome
    have htr : truthy (some t) = true := by simp [truthy, htz]
    by_cases hgo : (getTodaysTotalStats now today s).get td.category ≥
        limitsInMs.get td.category
    · refine ⟨?_, ?_, ?_⟩
      · simp [checkMyStatusHandler, htr, hsome, hgo]
      · intro _
        simp [checkMyStatusHandler, htr, hsome, hgo]
      · intro hlt
        exact absurd hgo (not_le.mpr hlt)
    · refine ⟨?_, ?_, ?_⟩
      · simp [checkMyStatusHandler, htr, hsome, hgo]
      · intro h'
        exact absurd h' hgo
      · intro _
        simp [checkMyStatusHandler, htr, hsome, hgo]
  · intro sid
    by_cases hsid : truthy sid = false
    · simp [checkMyStatusHandler, hsid]
    · cases hlk : lookupKV s.timers (sid.getD 0) with
      | none => simp [checkMyStatusHandler, hsid, hlk]
      | some td =>
        by_cases hgo : (getTodaysTotalStats now today s).get td.category ≥
            limitsInMs.get td.category
        · simp [checkMyStatusHandler, hsid, hlk, hgo]
        · simp [checkMyStatusHandler, hsid, hlk, hgo]

/-- Witness for C5: a concrete over-budget query is answered "block". -/
theorem checkMyStatus_decision_function_witness :
    ((1 : Nat) ≠ 0 ∧
      lookupKV c9DiscardInput.timers 1 = some ⟨Category.trash, 40000, none⟩ ∧
      (getTodaysTotalStats 50000 "2026-10-11" c9DiscardInput).get Category.trash ≥
        defaultLimitsInMs.get Category.trash) ∧
    checkMyStatusHandler defaultLimitsInMs 50000 "2026-10-11" (some 1) c9DiscardInput =
      ⟨pauseTimer 50000 1 c9DiscardInput, some AgentCmd.blockVideo, []⟩ :=
  ⟨⟨by decide, by decide, by decide⟩,
   ((checkMyStatus_decision_function defaultLimitsInMs 50000 "2026-10-11"
      c9DiscardInput).2.2.1 1 ⟨Category.trash, 40000, none⟩ (by decide)
      (by decide)).2.1 (by decide)⟩

/-- C6: resume is budget-guarded.  On a paused TimerState, `resumeTimer`
refuses and sends a block command when the bucket is at/over budget
(leaving the store unchanged), and otherwise sets `startTime := now`
keeping `totalTimeMs`; an absent or already-running TimerState is left
unchanged with nothing sent. -/
theorem resumeTimer_budget_guarded (limitsInMs : Stats) (now : Nat) (today : String)
    (t : Nat) (s : EngineState) :
    (∀ td : TimerData, lookupKV s.timers t = some td → td.startTime = none →
      (((getTodaysTotalStats now today s).get td.category ≥
          limitsInMs.get td.category →
        resumeTimer limitsInMs now today t s = (s, [(t, AgentCmd.blockVideo)])) ∧
      ((getTodaysTotalStats now today s).get td.category < limitsInMs.get td.category →
        resumeTimer limitsInMs now today t s =
          ({ s with timers := setKV s.timers t { td with startTime := some now } },
           [])))) ∧
    (lookupKV s.timers t = none → resumeTimer limitsInMs now today t s = (s, [])) ∧
    (∀ (td : TimerData) (st : Nat), lookupKV s.timers t = some td →
      td.startTime = some st → resumeTimer limitsInMs now today t s = (s, [])) := by
  refine ⟨?_, ?_, ?_⟩
  · intro td hlk hpaused
    constructor
    · intro hover
      simp [resumeTimer, hlk, hpaused, hover]
    · intro hunder
      have hno : ¬ ((getTodaysTotalStats now today s).get td.category ≥
          limitsInMs.get td.category) := not_le.mpr hunder
      simp [resumeTimer, hlk, hpaused, hno]
  · intro hnone
    simp [resumeTimer, hnone]
  · intro td st hlk hrun
    simp [resumeTimer, hlk, hrun]

/-- Witness for C6: a concrete paused under-budget timer resumes. -/
theorem resumeTimer_budget_guarded_witness :
    (lookupKV c4WitnessInput.timers 1 = some ⟨Category.interesting, 9000, none⟩ ∧
      (⟨Category.interesting, 9000, none⟩ : TimerData).startTime = none ∧
      (getTodaysTotalStats 20000 "2026-10-11" c4WitnessInput).get Category.interesting <
        defaultLimitsInMs.get Category.interesting) ∧
    resumeTimer defaultLimitsInMs 20000 "2026-10-11" 1 c4WitnessInput =
      ({ c4WitnessInput with timers := (setKV c4WitnessInput.timers 1
          ⟨Category.interesting, 9000, some 20000⟩) }, []) :=
  ⟨⟨by decide, by decide, by decide⟩,
   ((resumeTimer_budget_guarded defaultLimitsInMs 20000 "2026-10-11" 1
      c4WitnessInput).1 ⟨Category.interesting, 9000, none⟩ (by decide) (by decide)).2
     (by decide)⟩

/-! ### `pauseTimer` frame lemmas -/

theorem pauseTimer_daily (now t : Nat) (s : EngineState) :
    (pauseTimer now t s).daily = s.daily := by
  unfold pauseTimer
  cases lookupKV s.timers t with
  | none => rfl
  | some td =>
    by_cases h : truthy td.startTime
    · simp [h]
    · simp [h]

theorem pauseTimer_lastRunDate (now t : Nat) (s : EngineState) :
    (pauseTimer now t s).lastRunDate = s.lastRunDate := by
  unfold pauseTimer
  cases lookupKV s.timers t with
  | none => rfl
  | some td =>
    by_cases h : truthy td.startTime
    · simp [h]
    · simp [h]

theorem pauseTimer_lookup_ne (now t id : Nat) (s : EngineState) (hid : id ≠ t) :
    lookupKV (pauseTimer now t s).timers id = lookupKV s.timers id := by
  unfold pauseTimer
  cases lookupKV s.timers t with
  | none => rfl
  | some td =>
    by_cases h : truthy td.startTime
    · simp [h, lookupKV_setKV_ne s.timers t id _ hid]
    · simp [h]

theorem pauseTimer_lookup_self_running (now t : Nat) (s : EngineState) (td : TimerData)
    (st : Nat) (hlk : lookupKV s.timers t = some td) (hst : td.startTime = some st)
    (h0 : st ≠ 0) :
    lookupKV (pauseTimer now t s).timers t =
      some ⟨td.category, td.totalTimeMs + (now - st), none⟩ := by
  have htr : truthy td.startTime = true := by simp [truthy, hst, h0]
  have hfold : foldTimer now td = ⟨td.category, td.totalTimeMs + (now - st), none⟩ := by
    simp [foldTimer, hst]
  simp [pauseTimer, hlk, htr, hfold, lookupKV_setKV_self]

theorem pauseTimer_of_paused (now t : Nat) (s : EngineState) (td : TimerData)
    (hlk : lookupKV s.timers t = some td) (hst : td.startTime = none) :
    pauseTimer now t s = s := by
  have htr : truthy td.startTime = false := by simp [truthy, hst]
  simp [pauseTimer, hlk, htr]

/-- C10: the status handshake's frame.  Under budget the handler changes
nothing; over budget it modifies only the asking surface's TimerState
(folding the running interval and clearing `startTime`), leaving every
other surface's TimerState, all daily stats, and `lastRunDate` unchanged
(and if the asking timer was already paused, nothing at all changes). -/
theorem checkMyStatus_frame_property (limitsInMs : Stats) (now : Nat) (today : String)
    (t : Nat) (s : EngineState) (td : TimerData) (ht : t ≠ 0)
    (hlk : lookupKV s.timers t = some td) :
    ((getTodaysTotalStats now today s).get td.category < limitsInMs.get td.category →
      (checkMyStatusHandler limitsInMs now today (some t) s).state = s) ∧
    ((getTodaysTotalStats now today s).get td.category ≥ limitsInMs.get td.category →
      (checkMyStatusHandler limitsInMs now today (some t) s).state.daily = s.daily ∧
      (checkMyStatusHandler limitsInMs now today (some t) s).state.lastRunDate =
        s.lastRunDate ∧
      (∀ id, id ≠ t →
        lookupKV (checkMyStatusHandler limitsInMs now today (some t) s).state.timers id =
          lookupKV s.timers id) ∧
      (∀ st : Nat, td.startTime = some st → st ≠ 0 →
        lookupKV (checkMyStatusHandler limitsInMs now today (some t) s).state.timers t =
          some ⟨td.category, td.totalTimeMs + (now - st), none⟩) ∧
      (td.startTime = none →
        (checkMyStatusHandler limitsInMs now today (some t) s).state = s)) := by
  have htr : truthy (some t) = true := by simp [truthy, ht]
  constructor
  · intro hunder
    have hno : ¬ ((getTodaysTotalStats now today s).get td.category ≥
        limitsInMs.get td.category) := not_le.mpr hunder
    simp [checkMyStatusHandler, htr, hlk, hno]
  · intro hover
    have hstate : (checkMyStatusHandler limitsInMs now today (some t) s).state =
        pauseTimer now t s := by
      simp [checkMyStatusHandler, htr, hlk, hover]
    rw [hstate]
    refine ⟨pauseTimer_daily now t s, pauseTimer_lastRunDate now t s, ?_, ?_, ?_⟩
    · intro id hid
      exact pauseTimer_lookup_ne now t id s hid
    · intro st hst h0
      exact pauseTimer_lookup_self_running now t s td st hlk hst h0
    · intro hst
      exact pauseTimer_of_paused now t s td hlk hst

/-- Witness for C10: over budget, the handler pauses only surface 1's
running timer, leaving the other surface and the daily stats alone. -/
theorem checkMyStatus_frame_property_witness :
    ((1 : Nat) ≠ 0 ∧
      lookupKV c10WitnessInput.timers 1 = some ⟨Category.trash, 25000, some 4000⟩ ∧
      (getTodaysTotalStats 30000 "2026-10-11" c10WitnessInput).get Category.trash ≥
        defaultLimitsInMs.get Category.trash) ∧
    lookupKV (checkMyStatusHandler defaultLimitsInMs 30000 "2026-10-11" (some 1)
        c10WitnessInput).state.timers 1 =
      some ⟨Category.trash, 25000 + (30000 - 4000), none⟩ ∧
    lookupKV (checkMyStatusHandler defaultLimitsInMs 30000 "2026-10-11" (some 1)
        c10WitnessInput).state.timers 9 = lookupKV c10WitnessInput.timers 9 :=
  ⟨⟨by decide, by decide, by decide⟩,
   ((checkMyStatus_frame_property defaultLimitsInMs 30000 "2026-10-11" 1
      c10WitnessInput ⟨Category.trash, 25000, some 4000⟩ (by decide) (by decide)).2
      (by decide)).2.2.2.1 4000 (by decide) (by decide),
   ((checkMyStatus_frame_property defaultLimitsInMs 30000 "2026-10-11" 1
      c10WitnessInput ⟨Category.trash, 25000, some 4000⟩ (by decide) (by decide)).2
      (by decide)).2.2.1 9 (by decide)⟩

/-! ### `Stats` bucket lemmas -/

theorem Stats.get_zero (b : Category) : Stats.zero.get b = 0 := by
  cases b <;> rfl

theorem Stats.get_add (s : Stats) (c : Category) (n : Nat) (b : Category) :
    (s.add c n).get b = s.get b + (if c = b then n else 0) := by
  cases c <;> cases b <;> simp [Stats.add, Stats.get]

theorem Stats.get_combine (a c : Stats) (b : Category) :
    (Stats.combine a c).get b = a.get b + c.get b := by
  cases b <;> rfl

theorem liveStats_get (now : Nat) (ts : Timers) (b : Category) :
    (liveStats now ts).get b =
      (ts.map (fun p => if p.2.category = b then currentTotalMs now p.2 else 0)).sum := by
  suffices h : ∀ acc : Stats,
      ((ts.foldl (fun acc p => acc.add p.2.category (currentTotalMs now p.2)) acc).get b) =
        acc.get b +
          (ts.map (fun p => if p.2.category = b then currentTotalMs now p.2 else 0)).sum by
    simpa [liveStats, Stats.get_zero] using h Stats.zero
  induction ts with
  | nil => intro acc; simp
  | cons p rest ih =>
    intro acc
    simp only [List.foldl_cons, List.map_cons, List.sum_cons, ih, Stats.get_add]
    omega

theorem liveSum_eq_spec_sum (now : Nat) (b : Category) :
    ∀ ts : Timers, startTimesOk ts = true →
      (ts.map (fun p => if p.2.category = b then currentTotalMs now p.2 else 0)).sum =
        ((ts.filter (fun p => decide (p.2.category = b))).map
          (fun p => specLiveContribution now p.2)).sum := by
  intro ts
  induction ts with
  | nil => intro _; simp
  | cons p rest ih =>
    intro hok
    have hok' : startTimeOk p.2 = true ∧ startTimesOk rest = true := by
      simpa [startTimesOk, List.all_cons, Bool.and_eq_true] using hok
    have hcur : currentTotalMs now p.2 = specLiveContribution now p.2 := by
      cases hst : p.2.startTime with
      | none => simp [currentTotalMs, specLiveContribution, hst]
      | some st =>
        have h0 : st ≠ 0 := by
          have := hok'.1
          simpa [startTimeOk, hst] using this
        simp [currentTotalMs, specLiveContribution, hst, h0]
    by_cases hc : p.2.category = b
    · simp [List.filter_cons, hc, hcur, ih hok'.2]
    · simp [List.filter_cons, hc, ih hok'.2]

/-- C7: stats aggregation.  For every bucket, `getTodaysTotalStats` equals
the daily stats already folded under today's key plus the sum, over the
TimerStates of that bucket, of `accumulatedMs + (now - runningSinceMs)`
when running and `accumulatedMs` when paused; and with no folded record
and no timers the total is exactly zero. -/
theorem getTodaysTotalStats_characterization (now : Nat) (today : String)
    (s : EngineState) (b : Category) (h : startTimesOk s.timers = true) :
    (getTodaysTotalStats now today s).get b =
      (getDay s.daily today).get b +
        ((s.timers.filter (fun p => decide (p.2.category = b))).map
          (fun p => specLiveContribution now p.2)).sum ∧
    (lookupKV s.daily today = none → s.timers = [] →
      (getTodaysTotalStats now today s).get b = 0) := by
  constructor
  · rw [getTodaysTotalStats, Stats.get_combine, liveStats_get,
      liveSum_eq_spec_sum now b s.timers h]
  · intro hday htimers
    simp [getTodaysTotalStats, Stats.get_combine, getDay, hday, htimers, liveStats,
      Stats.get_zero]

/-- Witness for C7 on a concrete mixed store. -/
theorem getTodaysTotalStats_characterization_witness :
    startTimesOk c10WitnessInput.timers = true ∧
    (getTodaysTotalStats 30000 "2026-10-11" c10WitnessInput).get Category.trash =
      (getDay c10WitnessInput.daily "2026-10-11").get Category.trash +
        ((c10WitnessInput.timers.filter
            (fun p => decide (p.2.category = Category.trash))).map
          (fun p => specLiveContribution 30000 p.2)).sum :=
  ⟨by decide,
   (getTodaysTotalStats_characterization 30000 "2026-10-11" c10WitnessInput
      Category.trash (by decide)).1⟩

/-- C8: stop is idempotent and zero-guarded.  A second `stopTimerAndSave`
on the same surface is a no-op; when a TimerState exists, stop removes it
and folds its final total (running interval included) into today's daily
stats exactly when that total is positive; a zero-total stop writes
nothing to daily stats; stopping an absent surface changes nothing. -/
theorem stopTimer_idempotent_and_zero_guarded (now now2 : Nat) (today today2 : String)
    (t : Nat) (s : EngineState) :
    stopTimerAndSave now2 today2 t (stopTimerAndSave now today t s) =
      stopTimerAndSave now today t s ∧
    (∀ td : TimerData, lookupKV s.timers t = some td →
      (stopTimerAndSave now today t s).timers = removeKV s.timers t ∧
      (stopTimerAndSave now today t s).daily =
        (if currentTotalMs now td > 0 then
          setKV s.daily today
            ((getDay s.daily today).add td.category (currentTotalMs now td))
        else s.daily) ∧
      (currentTotalMs now td = 0 → (stopTimerAndSave now today t s).daily = s.daily) ∧
      (stopTimerAndSave now today t s).lastRunDate = s.lastRunDate) ∧
    (lookupKV s.timers t = none → stopTimerAndSave now today t s = s) := by
  have hfold : ∀ td : TimerData,
      (if truthy td.startTime then foldTimer now td else td).totalTimeMs =
        currentTotalMs now td ∧
      (if truthy td.startTime then foldTimer now td else td).category = td.category := by
    intro td
    cases hst : td.startTime with
    | none => simp [truthy, hst, currentTotalMs]
    | some st =>
      by_cases h0 : st = 0
      · simp [truthy, hst, h0, currentTotalMs]
      · simp [truthy, hst, h0, currentTotalMs, foldTimer]
  have habsent : ∀ (n : Nat) (d : String) (s' : EngineState),
      lookupKV s'.timers t = none → stopTimerAndSave n d t s' = s' := by
    intro n d s' h
    simp [stopTimerAndSave, h]
  refine ⟨?_, ?_, ?_⟩
  · cases hlk : lookupKV s.timers t with
    | none =>
      rw [habsent now today s hlk, habsent now2 today2 s hlk]
    | some td =>
      have htimers : (stopTimerAndSave now today t s).timers = removeKV s.timers t := by
        simp [stopTimerAndSave, hlk]
      have hgone : lookupKV (stopTimerAndSave now today t s).timers t = none := by
        rw [htimers]
        exact lookupKV_removeKV_self s.timers t
      exact habsent now2 today2 _ hgone
  · intro td hlk
    have h1 := (hfold td).1
    have h2 := (hfold td).2
    refine ⟨by simp [stopTimerAndSave, hlk], ?_, ?_, by simp [stopTimerAndSave, hlk]⟩
    · by_cases hpos : currentTotalMs now td > 0
      · simp [stopTimerAndSave, hlk, h1, h2, hpos]
      · simp [stopTimerAndSave, hlk, h1, h2, hpos]
    · intro hzero
      simp [stopTimerAndSave, hlk, h1, hzero]
  · intro hlk
    simp [stopTimerAndSave, hlk]

/-- Witness for C8: stopping a concrete running timer folds its total and
deletes it; stopping again is a no-op. -/
theorem stopTimer_idempotent_and_zero_guarded_witness :
    lookupKV c10WitnessInput.timers 1 = some ⟨Category.trash, 25000, some 4000⟩ ∧
    (stopTimerAndSave 30000 "2026-10-11" 1 c10WitnessInput).timers =
      removeKV c10WitnessInput.timers 1 ∧
    stopTimerAndSave 31000 "2026-10-11" 1
        (stopTimerAndSave 30000 "2026-10-11" 1 c10WitnessInput) =
      stopTimerAndSave 30000 "2026-10-11" 1 c10WitnessInput :=
  ⟨by decide,
   ((stopTimer_idempotent_and_zero_guarded 30000 31000 "2026-10-11" "2026-10-11" 1
      c10WitnessInput).2.1 ⟨Category.trash, 25000, some 4000⟩ (by decide)).1,
   (stopTimer_idempotent_and_zero_guarded 30000 31000 "2026-10-11" "2026-10-11" 1
      c10WitnessInput).1⟩

/-! ### Charge-preservation lemmas for conservation of time -/

theorem lookupKV_mem {α β : Type} [DecidableEq α] :
    ∀ (l : List (α × β)) (k : α) (v : β), lookupKV l k = some v → (k, v) ∈ l := by
  intro l
  induction l with
  | nil => intro k v h; cases h
  | cons p rest ih =>
    intro k v h
    by_cases hp : p.1 = k
    · rw [lookupKV, if_pos hp] at h
      cases h
      subst hp
      exact List.mem_cons_self p rest
    · rw [lookupKV, if_neg hp] at h
      exact List.mem_cons_of_mem p (ih k v h)

theorem startTimeOk_of_lookup (ts : Timers) (k : Nat) (td : TimerData)
    (hok : startTimesOk ts = true) (hlk : lookupKV ts k = some td) :
    startTimeOk td = true := by
  have hmem := lookupKV_mem ts k td hlk
  have := List.all_eq_true.mp hok (k, td) hmem
  simpa using this

theorem removeKV_eq_of_not_mem {α β : Type} [DecidableEq α] (l : List (α × β)) (k : α)
    (h : k ∉ l.map Prod.fst) : removeKV l k = l := by
  induction l with
  | nil => rfl
  | cons p rest ih =>
    simp only [List.map_cons, List.mem_cons] at h
    push_neg at h
    have hp : ¬ p.1 = k := fun h' => h.1 h'.symm
    have := ih h.2
    simp only [removeKV] at this ⊢
    simp [List.filter_cons, hp, this]

theorem catCharge_foldTimer (now : Nat) (b : Category) (td : TimerData) :
    catCharge now b (foldTimer now td) = catCharge now b td := by
  cases hst : td.startTime with
  | none => simp [foldTimer, hst]
  | some st => simp [catCharge, foldTimer, hst, timerCharge]

theorem catCharge_eq_currentTotalMs (now : Nat) (b : Category) (td : TimerData)
    (h : startTimeOk td = true) :
    catCharge now b td = if td.category = b then currentTotalMs now td else 0 := by
  cases hst : td.startTime with
  | none => simp [catCharge, timerCharge, currentTotalMs, hst]
  | some st =>
    have h0 : st ≠ 0 := by simpa [startTimeOk, hst] using h
    simp [catCharge, timerCharge, currentTotalMs, hst, h0]

theorem timersCharge_setKV_eq (now : Nat) (b : Category) :
    ∀ (ts : Timers) (k : Nat) (td td' : TimerData), lookupKV ts k = some td →
      catCharge now b td' = catCharge now b td →
      timersCharge now b (setKV ts k td') = timersCharge now b ts := by
  intro ts
  induction ts with
  | nil => intro k td td' h _; cases h
  | cons p rest ih =>
    intro k td td' hlk hch
    by_cases hp : p.1 = k
    · rw [lookupKV, if_pos hp] at hlk
      cases hlk
      simp [setKV, hp, timersCharge, hch]
    · rw [lookupKV, if_neg hp] at hlk
      simp only [setKV, if_neg hp, timersCharge, List.map_cons, List.sum_cons]
      have := ih k td td' hlk hch
      simp only [timersCharge] at this
      rw [this]

theorem timersCharge_setKV_new (now : Nat) (b : Category) :
    ∀ (ts : Timers) (k : Nat) (td : TimerData), lookupKV ts k = none →
      timersCharge now b (setKV ts k td) =
        timersCharge now b ts + catCharge now b td := by
  intro ts
  induction ts with
  | nil => intro k td _; simp [setKV, timersCharge]
  | cons p rest ih =>
    intro k td hlk
    by_cases hp : p.1 = k
    · rw [lookupKV, if_pos hp] at hlk
      cases hlk
    · rw [lookupKV, if_neg hp] at hlk
      simp only [setKV, if_neg hp, timersCharge, List.map_cons, List.sum_cons]
      have := ih k td hlk
      simp only [timersCharge] at this
      rw [this]
      omega

theorem timersCharge_removeKV (now : Nat) (b : Category) :
    ∀ (ts : Timers) (k : Nat) (td : TimerData), (ts.map Prod.fst).Nodup →
      lookupKV ts k = some td →
      timersCharge now b (removeKV ts k) + catCharge now b td =
        timersCharge now b ts := by
  intro ts
  induction ts with
  | nil => intro k td _ h; cases h
  | cons p rest ih =>
    intro k td hnd hlk
    simp only [List.map_cons, List.nodup_cons] at hnd
    by_cases hp : p.1 = k
    · rw [lookupKV, if_pos hp] at hlk
      cases hlk
      have hnot : k ∉ rest.map Prod.fst := by
        rw [← hp]
        exact hnd.1
      have hrest : removeKV rest k = rest := removeKV_eq_of_not_mem rest k hnot
      simp only [removeKV, List.filter_cons, hp]
      simp only [removeKV] at hrest
      simp [hrest, timersCharge, Nat.add_comm]
    · rw [lookupKV, if_neg hp] at hlk
      have := ih k td hnd.2 hlk
      simp only [removeKV, List.filter_cons] at this ⊢
      simp only [timersCharge] at this ⊢
      simp only [hp, decide_eq_true_eq, if_neg hp]
      simp only [Bool.not_eq_true']
      rw [if_pos]
      · simp only [List.map_cons, List.sum_cons]
        omega
      · simp [hp]

theorem bucketCharge_pauseTimer (now : Nat) (today : String) (b : Category) (t : Nat)
    (s : EngineState) :
    bucketCharge now today b (pauseTimer now t s) = bucketCharge now today b s := by
  unfold pauseTimer
  cases hlk : lookupKV s.timers t with
  | none => rfl
  | some td =>
    by_cases htr : truthy td.startTime
    · simp only [htr, if_true, bucketCharge]
      rw [timersCharge_setKV_eq now b s.timers t td (foldTimer now td) hlk
        (catCharge_foldTimer now b td)]
    · simp [htr]

theorem timersCharge_pauseAll (now : Nat) (b : Category) (exc : Option Nat) :
    ∀ ts : Timers, timersCharge now b (pauseAllTimers now exc ts) =
      timersCharge now b ts := by
  intro ts
  induction ts with
  | nil => rfl
  | cons p rest ih =>
    have hentry : catCharge now b (pauseAllEntry now exc p).2 = catCharge now b p.2 := by
      unfold pauseAllEntry
      by_cases he : some p.1 = exc
      · simp [he]
      · by_cases htr : truthy p.2.startTime
        · simp [he, htr, catCharge_foldTimer]
        · simp [he, htr]
    simp only [pauseAllTimers, timersCharge, List.map_cons, List.sum_cons] at ih ⊢
    rw [hentry, ih]

theorem bucketCharge_def (now : Nat) (today : String) (b : Category) (s : EngineState) :
    bucketCharge now today b s =
      (getDay s.daily today).get b + timersCharge now b s.timers := rfl

theorem bucketCharge_setTimers (now : Nat) (today : String) (b : Category)
    (s : EngineState) (ts : Timers) :
    bucketCharge now today b { s with timers := ts } =
      (getDay s.daily today).get b + timersCharge now b ts := rfl

theorem bucketCharge_mk (now : Nat) (today : String) (b : Category) (ts : Timers)
    (d : List (String × Stats)) (lr : Option String) :
    bucketCharge now today b ⟨ts, d, lr⟩ =
      (getDay d today).get b + timersCharge now b ts := rfl

theorem bucketCharge_resumeTimer (limitsInMs : Stats) (now : Nat) (today : String)
    (b : Category) (t : Nat) (s : EngineState) :
    bucketCharge now today b ((resumeTimer limitsInMs now today t s).1) =
      bucketCharge now today b s := by
  cases hlk : lookupKV s.timers t with
  | none => simp [resumeTimer, hlk]
  | some td =>
    by_cases hpaused : td.startTime = none
    · by_cases hover : (getTodaysTotalStats now today s).get td.category ≥
          limitsInMs.get td.category
      · simp [resumeTimer, hlk, hpaused, hover]
      · have hstate : (resumeTimer limitsInMs now today t s).1 =
            { s with timers := setKV s.timers t { td with startTime := some now } } := by
          simp [resumeTimer, hlk, hpaused, hover]
        have hch : catCharge now b { td with startTime := some now } =
            catCharge now b td := by
          simp [catCharge, timerCharge, hpaused, Nat.sub_self]
        rw [hstate, bucketCharge_setTimers, bucketCharge_def,
          timersCharge_setKV_eq now b s.timers t td _ hlk hch]
    · simp [resumeTimer, hlk, hpaused]

theorem folded_stop_timer (now : Nat) (td : TimerData) :
    (if truthy td.startTime then foldTimer now td else td).totalTimeMs =
        currentTotalMs now td ∧
    (if truthy td.startTime then foldTimer now td else td).category = td.category := by
  cases hst : td.startTime with
  | none => simp [truthy, hst, currentTotalMs]
  | some st =>
    by_cases h0 : st = 0
    · simp [truthy, hst, h0, currentTotalMs]
    · simp [truthy, hst, h0, currentTotalMs, foldTimer]

theorem bucketCharge_stopTimer (now : Nat) (today : String) (b : Category) (t : Nat)
    (s : EngineState) (hok : startTimesOk s.timers = true)
    (hnd : (s.timers.map Prod.fst).Nodup) :
    bucketCharge now today b (stopTimerAndSave now today t s) =
      bucketCharge now today b s := by
  cases hlk : lookupKV s.timers t with
  | none => simp [stopTimerAndSave, hlk]
  | some td =>
    have hT := (folded_stop_timer now td).1
    have hcat := (folded_stop_timer now td).2
    have hremove := timersCharge_removeKV now b s.timers t td hnd hlk
    have hcc : catCharge now b td =
        if td.category = b then currentTotalMs now td else 0 :=
      catCharge_eq_currentTotalMs now b td (startTimeOk_of_lookup s.timers t td hok hlk)
    by_cases hpos : 0 < currentTotalMs now td
    · have hstate : stopTimerAndSave now today t s =
          ⟨removeKV s.timers t,
           setKV s.daily today
             ((getDay s.daily today).add td.category (currentTotalMs now td)),
           s.lastRunDate⟩ := by
        simp [stopTimerAndSave, hlk, hT, hcat, hpos]
      rw [hstate, bucketCharge_mk, bucketCharge_def]
      rw [getDay, lookupKV_setKV_self, Option.getD_some, Stats.get_add, ← hcc]
      omega
    · have hstate : stopTimerAndSave now today t s =
          ⟨removeKV s.timers t, s.daily, s.lastRunDate⟩ := by
        simp [stopTimerAndSave, hlk, hT, hpos]
      rw [hstate, bucketCharge_mk, bucketCharge_def]
      have hzero : currentTotalMs now td = 0 := by omega
      have hcz : catCharge now b td = 0 := by
        rw [hcc, hzero]
        split <;> rfl
      omega

theorem bucketCharge_checkMyStatus (limitsInMs : Stats) (now : Nat) (today : String)
    (b : Category) (sid : Option Nat) (s : EngineState) :
    bucketCharge now today b ((checkMyStatusHandler limitsInMs now today sid s).state) =
      bucketCharge now today b s := by
  unfold checkMyStatusHandler
  by_cases hsid : truthy sid = false
  · simp [hsid]
  · simp only [hsid, if_false]
    cases hlk : lookupKV s.timers (sid.getD 0) with
    | none => rfl
    | some td =>
      by_cases hover : (getTodaysTotalStats now today s).get td.category ≥
          limitsInMs.get td.category
      · simp only [hover, if_true]
        exact bucketCharge_pauseTimer now today b (sid.getD 0) s
      · simp [hover]

theorem bucketCharge_start (limitsInMs : Stats) (now : Nat) (today : String)
    (b : Category) (tid : Option Nat) (cat : Category) (s : EngineState)
    (hcons : opConserves limitsInMs now today (EngineOp.start tid cat) s = true) :
    bucketCharge now today b ((startTimerHandler limitsInMs now today tid cat s).state) =
      bucketCharge now today b s := by
  by_cases htr : truthy tid = true
  · by_cases hover : (getTodaysTotalStats now today s).get cat ≥ limitsInMs.get cat
    · have hstate : (startTimerHandler limitsInMs now today tid cat s).state =
          { s with timers := setKV s.timers (tid.getD 0) ⟨cat, 0, none⟩ } := by
        simp [startTimerHandler, htr, hover]
      rw [hstate, bucketCharge_setTimers, bucketCharge_def]
      have hnew : timerCharge now (⟨cat, 0, none⟩ : TimerData) = 0 := rfl
      cases hlk : lookupKV s.timers (tid.getD 0) with
      | none =>
        rw [timersCharge_setKV_new now b s.timers (tid.getD 0) _ hlk]
        have h0 : catCharge now b (⟨cat, 0, none⟩ : TimerData) = 0 := by
          simp [catCharge, hnew]
        omega
      | some td =>
        have hzero : timerCharge now td = 0 := by
          simp only [opConserves] at hcons
          rw [if_pos htr, if_pos hover, hlk] at hcons
          simpa using hcons
        have hch : catCharge now b (⟨cat, 0, none⟩ : TimerData) = catCharge now b td := by
          simp [catCharge, hnew, hzero]
        rw [timersCharge_setKV_eq now b s.timers (tid.getD 0) td _ hlk hch]
    · cases hlk : lookupKV s.timers (tid.getD 0) with
      | some _ =>
        have hstate : (startTimerHandler limitsInMs now today tid cat s).state = s := by
          simp [startTimerHandler, htr, hover, hlk]
        rw [hstate]
      | none =>
        have hstate : (startTimerHandler limitsInMs now today tid cat s).state =
            { s with timers := setKV s.timers (tid.getD 0) ⟨cat, 0, some now⟩ } := by
          simp [startTimerHandler, htr, hover, hlk]
        rw [hstate, bucketCharge_setTimers, bucketCharge_def]
        rw [timersCharge_setKV_new now b s.timers (tid.getD 0) _ hlk]
        have hnew : timerCharge now (⟨cat, 0, some now⟩ : TimerData) =
            0 + (now - now) := rfl
        have h0 : catCharge now b (⟨cat, 0, some now⟩ : TimerData) = 0 := by
          simp [catCharge, hnew]
        omega
  · have hf : truthy tid = false := by
      cases h : truthy tid
      · rfl
      · exact absurd h htr
    have hstate : (startTimerHandler limitsInMs now today tid cat s).state = s := by
      simp [startTimerHandler, hf]
    rw [hstate]

theorem bucketCharge_newDay (now : Nat) (today : String) (b : Category)
    (s : EngineState) :
    bucketCharge now today b (resetFlagsOnNewDay today s) = bucketCharge now today b s := by
  unfold resetFlagsOnNewDay
  split
  · rfl
  · rfl

theorem bucketCharge_sweepFold (limitsInMs : Stats) (now : Nat) (today : String)
    (b : Category) (s0 : EngineState) :
    ∀ (ts : Timers) (acc : EngineState × List (Nat × AgentCmd)),
      bucketCharge now today b
        ((ts.foldl (fun acc p =>
            if (getTodaysTotalStats now today s0).get p.2.category ≥
                limitsInMs.get p.2.category then
              (pauseTimer now p.1 acc.1, acc.2 ++ [(p.1, AgentCmd.blockVideo)])
            else acc) acc).1) = bucketCharge now today b acc.1 := by
  intro ts
  induction ts with
  | nil => intro acc; rfl
  | cons p rest ih =>
    intro acc
    simp only [List.foldl_cons]
    by_cases h : (getTodaysTotalStats now today s0).get p.2.category ≥
        limitsInMs.get p.2.category
    · rw [if_pos h, ih]
      exact bucketCharge_pauseTimer now today b p.1 acc.1
    · rw [if_neg h, ih]

theorem bucketCharge_sweep (limitsInMs : Stats) (now : Nat) (today : String)
    (b : Category) (s : EngineState) :
    bucketCharge now today b ((proactivelyCheckLimits limitsInMs now today s).1) =
      bucketCharge now today b s := by
  unfold proactivelyCheckLimits
  exact bucketCharge_sweepFold limitsInMs now today b s s.timers (s, [])

/-- C9 amended: per-operation conservation of time.  Every deterministic
engine operation (startTimer, pause, pauseAll, resume, stop,
checkMyStatus, day-rollover, proactive sweep), applied at instant `now`,
preserves each bucket's charge — the milliseconds folded into today's
daily stats plus `accumulatedMs + (now - runningSinceMs)` summed over the
live TimerStates — provided the store has distinct surface keys and
positive start times, and the operation is not an over-budget
`startTimer` aimed at a surface whose existing TimerState still holds
unfolded time (that exception discards the overwritten charge, as the
counterexample shows).  Between operations the charge grows exactly with
the wall-clock time of running intervals, so no operation discards or
double-counts accrued time. -/
theorem engine_ops_preserve_bucket_charge (limitsInMs : Stats) (now : Nat)
    (today : String) (op : EngineOp) (s : EngineState) (b : Category)
    (hok : startTimesOk s.timers = true)
    (hnd : (s.timers.map Prod.fst).Nodup)
    (hcons : opConserves limitsInMs now today op s = true) :
    bucketCharge now today b (applyOp limitsInMs now today op s) =
      bucketCharge now today b s := by
  cases op with
  | start tid cat => exact bucketCharge_start limitsInMs now today b tid cat s hcons
  | pause tid => exact bucketCharge_pauseTimer now today b tid s
  | pauseAllOp exc =>
    show bucketCharge now today b { s with timers := pauseAllTimers now exc s.timers } = _
    rw [bucketCharge_setTimers, bucketCharge_def, timersCharge_pauseAll]
  | resume tid => exact bucketCharge_resumeTimer limitsInMs now today b tid s
  | stop tid => exact bucketCharge_stopTimer now today b tid s hok hnd
  | status sid => exact bucketCharge_checkMyStatus limitsInMs now today b sid s
  | newDayTick => exact bucketCharge_newDay now today b s
  | sweep => exact bucketCharge_sweep limitsInMs now today b s

/-- Witness for C9's amended claim: a concrete `stop` preserves the
`trash` charge. -/
theorem engine_ops_preserve_bucket_charge_witness :
    (startTimesOk c10WitnessInput.timers = true ∧
      (c10WitnessInput.timers.map Prod.fst).Nodup ∧
      opConserves defaultLimitsInMs 30000 "2026-10-11" (EngineOp.stop 1)
        c10WitnessInput = true) ∧
    bucketCharge 30000 "2026-10-11" Category.trash
        (applyOp defaultLimitsInMs 30000 "2026-10-11" (EngineOp.stop 1)
          c10WitnessInput) =
      bucketCharge 30000 "2026-10-11" Category.trash c10WitnessInput :=
  ⟨⟨by decide, by decide, by decide⟩,
   engine_ops_preserve_bucket_charge defaultLimitsInMs 30000 "2026-10-11"
     (EngineOp.stop 1) c10WitnessInput Category.trash (by decide) (by decide)
     (by decide)⟩

end FocusMe
